import Mathlib

/-!
Verification development for the MarkerDisplayer repository
(src/display_markerdata.py and src/communicateBabylon.py).

The Python code is shallowly embedded: pandas cells are modelled by `Val`
(a float that is NaN, +inf, -inf or a finite rational; in pandas a missing
cell of a numeric column *is* the float NaN, so NaN doubles as "missing");
DataFrames are a header of column names plus rows of cells; matplotlib
state that the code mutates (the 3D scatter handle and the red highlight
handle) is carried explicitly in `PlotState`.  Fallible Python code is
embedded in `Except`.
-/

/-- A pandas/numpy float cell.  `nan` is both the missing-value marker and
the NaN float (they coincide in pandas numeric columns). -/
inductive Val
  | nan
  | posInf
  | negInf
  | fin (q : ℚ)
deriving DecidableEq

/-- `math.isnan(v) or math.isinf(v)` is false, `np.isfinite` is true. -/
def isFiniteVal : Val → Bool
  | .fin _ => true
  | _ => false

/-- pandas missing test (`dropna` keys on this): the cell is NaN. -/
def isMissing : Val → Bool
  | .nan => true
  | _ => false

/-- `needle` occurs at the head of `hay` (character-by-character). -/
def startMatch : List Char → List Char → Bool
  | [], _ => true
  | _ :: _, [] => false
  | a :: as, b :: bs => a == b && startMatch as bs

/-- `needle` occurs contiguously somewhere in `hay`. -/
def subMatch (needle : List Char) : List Char → Bool
  | [] => needle.isEmpty
  | c :: cs => startMatch needle (c :: cs) || subMatch needle cs

/-- Python's substring test `needle in hay` on strings. -/
def strContains (hay needle : String) : Bool :=
  subMatch needle.toList hay.toList

/-- A raw tabular recording as read by `pd.read_csv`: header names and
rows of float cells (empty CSV cells read as NaN). -/
structure RawTable where
  header : List String
  rows : List (List Val)
deriving DecidableEq

/-- `load_data` raises `ValueError("The CSV file must contain a 'Frame' column.")`. -/
inductive LoadError
  | missingFrameColumn
deriving DecidableEq

/-- A column is in `required_columns = ['Frame'] + marker_columns` of
`load_data`: it is the frame column or its name contains the selected
marker's name (line 47-48 of display_markerdata.py). -/
def requiredCol (markerName colName : String) : Bool :=
  colName == "Frame" || strContains colName markerName

/-- `self.df.dropna(how='all')` (line 44): drop rows where every cell is missing. -/
def dropAllEmpty (rows : List (List Val)) : List (List Val) :=
  rows.filter (fun r => !(r.all isMissing))

/-- Row predicate for `dropna(subset=required_columns)` (line 49): no
required column of the row is missing. -/
def rowHasRequired (markerName : String) (header : List String) (r : List Val) : Bool :=
  (List.range header.length).all (fun i =>
    !(requiredCol markerName (header.getD i "")) || !(isMissing (r.getD i Val.nan)))

/-- `dropna(subset=required_columns)` (line 49). -/
def dropMissingRequired (markerName : String) (header : List String)
    (rows : List (List Val)) : List (List Val) :=
  rows.filter (rowHasRequired markerName header)

/-- Cell map of `fillna(0)` (line 52): missing becomes 0. -/
def zeroCell : Val → Val
  | .nan => .fin 0
  | c => c

/-- `self.df.fillna(0)` (line 52). -/
def fillZero (rows : List (List Val)) : List (List Val) :=
  rows.map (fun r => r.map zeroCell)

/-- Cell map of `replace([np.inf, -np.inf], np.nan)` (line 55). -/
def infCell : Val → Val
  | .posInf => .nan
  | .negInf => .nan
  | c => c

/-- `self.df.replace([np.inf, -np.inf], np.nan)` (line 55). -/
def infToMissing (rows : List (List Val)) : List (List Val) :=
  rows.map (fun r => r.map infCell)

/-- The trailing `.dropna()` (line 55): drop rows with any missing cell. -/
def dropAnyMissing (rows : List (List Val)) : List (List Val) :=
  rows.filter (fun r => r.all (fun c => !(isMissing c)))

/-- `MarkerVisualizer.load_data` (display_markerdata.py lines 37-57):
raise if there is no 'Frame' column, else run the sanitation pipeline in
source order and return the sanitized rows. -/
def load_data (markerName : String) (t : RawTable) : Except LoadError (List (List Val)) :=
  if "Frame" ∈ t.header then
    Except.ok (dropAnyMissing (infToMissing (fillZero
      (dropMissingRequired markerName t.header (dropAllEmpty t.rows)))))
  else
    Except.error LoadError.missingFrameColumn

/-- `plot_marker_graph` raises `ValueError` before any plotting when the
data is absent or the selected marker's column group is not exactly 3. -/
inductive PlotGraphError
  | dataNotLoaded
  | markerColumnsNot3
deriving DecidableEq

/-- Indices of the header columns satisfying `p` (the list comprehension
`[col for col in self.df.columns if ...]`, kept as header positions). -/
def colIdxsWhere (p : String → Bool) (header : List String) : List Nat :=
  (List.range header.length).filter (fun i => p (header.getD i ""))

/-- `[col for col in self.df.columns if self.marker_name in col]`. -/
def selectedColIdxs (markerName : String) (header : List String) : List Nat :=
  colIdxsWhere (fun c => strContains c markerName) header

/-- Structural prefix of `MarkerVisualizer.plot_marker_graph` (lines
59-67): raise if data is not loaded, raise if the selected marker does
not resolve to exactly 3 columns; the plotting itself is an external
matplotlib effect and carries no further data content. -/
def plot_marker_graph (markerName : String) (odf : Option RawTable) :
    Except PlotGraphError Unit :=
  match odf with
  | none => Except.error PlotGraphError.dataNotLoaded
  | some df =>
    if (selectedColIdxs markerName df.header).length ≠ 3 then
      Except.error PlotGraphError.markerColumnsNot3
    else
      Except.ok ()

lemma mem_load_data_shape {markerName : String} {t : RawTable} {rows : List (List Val)}
    (h : load_data markerName t = Except.ok rows) :
    rows = dropAnyMissing (infToMissing (fillZero
      (dropMissingRequired markerName t.header (dropAllEmpty t.rows)))) := by
  unfold load_data at h
  by_cases hf : "Frame" ∈ t.header
  · rw [if_pos hf] at h
    exact (Except.ok.inj h).symm
  · rw [if_neg hf] at h
    exact absurd h (by simp)

/-- Claim C1: every table accepted by the `load_data` sanitation pipeline
(drop all-empty rows; drop rows missing the frame number or a selected
marker column; fill remaining missing cells with zero; replace Infinity by
missing and drop rows still containing a missing value) contains no NaN
and no Infinity: every surviving cell is a finite value. -/
theorem C1_sanitation_no_nonfinite (markerName : String) (t : RawTable)
    (rows : List (List Val)) (h : load_data markerName t = Except.ok rows) :
    ∀ r ∈ rows, ∀ c ∈ r, isFiniteVal c = true := by
  have hshape := mem_load_data_shape h
  subst hshape
  intro r hr c hc
  rw [dropAnyMissing, List.mem_filter] at hr
  obtain ⟨hrmem, hall⟩ := hr
  rw [infToMissing, List.mem_map] at hrmem
  obtain ⟨r0, _, rfl⟩ := hrmem
  rw [List.mem_map] at hc
  obtain ⟨c0, hc0, rfl⟩ := hc
  have hnm := List.all_eq_true.mp hall (infCell c0) (List.mem_map.mpr ⟨c0, hc0, rfl⟩)
  cases c0 <;> simp [infCell, isMissing, isFiniteVal] at hnm ⊢

/-- Concrete instantiation of C1: the one-row table whose cells are
(frame 1, 7, 0) survives sanitation and its cells are all finite. -/
theorem C1_sanitation_no_nonfinite_witness :
    isFiniteVal (Val.fin 7) = true :=
  C1_sanitation_no_nonfinite "M"
    (RawTable.mk ["Frame", "Mx"] [[Val.fin 1, Val.fin 7]])
    [[Val.fin 1, Val.fin 7]] (by rfl)
    [Val.fin 1, Val.fin 7] (by decide)
    (Val.fin 7) (by decide)

/-- A 3D marker position: one row of the `(markers, 3)` slice. -/
abbrev Vec3 := Val × Val × Val

/-- `np.isfinite(pos).all()` over the three components. -/
def posFinite (p : Vec3) : Bool :=
  isFiniteVal p.1 && isFiniteVal p.2.1 && isFiniteVal p.2.2

/-- numpy `v >= q` on one float: NaN compares false, +inf is ≥ everything. -/
def valGeQ (v : Val) (q : ℚ) : Bool :=
  match v with
  | .fin x => decide (q ≤ x)
  | .posInf => true
  | .negInf => false
  | .nan => false

/-- numpy `v <= q` on one float. -/
def valLeQ (v : Val) (q : ℚ) : Bool :=
  match v with
  | .fin x => decide (x ≤ q)
  | .posInf => false
  | .negInf => true
  | .nan => false

/-- One component of `(pos >= lo) & (pos <= hi)`. -/
def compInRange (lo hi : ℚ) (v : Val) : Bool :=
  valGeQ v lo && valLeQ v hi

/-- `np.all((pos >= lo) & (pos <= hi))` over the three components. -/
def posInRange (lo hi : ℚ) (p : Vec3) : Bool :=
  compInRange lo hi p.1 && compInRange lo hi p.2.1 && compInRange lo hi p.2.2

/-- `position_min, position_max = -1000, 10000` (line 192). -/
def plausibleMin : ℚ := -1000

def plausibleMax : ℚ := 10000

/-- `extreme_threshold_min/max = -1e5, 1e5` (lines 196-197). -/
def extremeMin : ℚ := -100000

def extremeMax : ℚ := 100000

/-- The body of the per-marker filter loop (lines 200-215): skip on NaN or
Inf; else require the plausible range, and inside it the extreme
envelope, before appending to `valid_marker_positions`. -/
def markerValid (p : Vec3) : Bool :=
  if posFinite p = false then false
  else if posInRange plausibleMin plausibleMax p then
    posInRange extremeMin extremeMax p
  else false

/-- The mutable matplotlib state that `update_3d_plot` reads and writes:
whether the 3D figure exists (`create_3d_plot`), the current general
scatter handle (`self.scatter_3d`, carrying the points it draws), and the
current red highlight handle (`self.red_marker_3d`). -/
structure PlotState where
  figInit : Bool
  scatter : Option (List Vec3)
  red : Option Vec3
deriving DecidableEq

/-- Exceptions that the body of `update_3d_plot` can raise (all subclass
`Exception`, hence all are caught by the trailing `except Exception`). -/
inductive PyExn
  | typeError
  | valueError
deriving DecidableEq

/-- `[col for col in self.df.columns if '<T-' in col]` (line 172). -/
def groupIdxs (header : List String) : List Nat :=
  colIdxsWhere (fun c => strContains c "<T-") header

/-- Regroup a flat row slice into consecutive triples: the row-local view
of `reshape(-1, len(marker_columns) // 3, 3)` (line 178). -/
def toTriples : List Val → List Vec3
  | a :: b :: c :: rest => (a, b, c) :: toTriples rest
  | _ => []

/-- `self.df[marker_columns].values.reshape(-1, m, 3)` (line 178): per
row, the cells of the marker-group columns, grouped in triples. -/
def allMarkerPositions (t : RawTable) : List (List Vec3) :=
  t.rows.map (fun r => toTriples ((groupIdxs t.header).map (fun i => r.getD i Val.nan)))

/-- `frame_positions = all_marker_positions[frame_index]` (line 184). -/
def framePositions (t : RawTable) (i : Nat) : List Vec3 :=
  (allMarkerPositions t).getD i []

/-- `valid_marker_positions` after the filter loop (lines 193-215). -/
def validMarkerPositions (t : RawTable) (i : Nat) : List Vec3 :=
  (framePositions t i).filter markerValid

/-- Placeholder for an out-of-bounds numpy indexing default; never the
value actually read on the in-bounds paths the code takes. -/
def vecDefault : Vec3 := (Val.nan, Val.nan, Val.nan)

/-- What one call of `update_3d_plot` reports: each early `return` of the
source with its printed reason, a successful redraw, or the catch-all
`except Exception` handler (line 274). -/
inductive Outcome
  | outOfBounds
  | badStructure
  | invalidFrameIndex
  | frameInvalid
  | noValidMarkers
  | incompleteSelected
  | residualNonFinite
  | updated (drawn : List Vec3) (highlighted : Option Vec3)
  | errorCaught
deriving DecidableEq

/-- The `try` body of `MarkerVisualizer.update_3d_plot` (lines 163-272),
with the raising operations embedded as `Except.error` carrying the
mutable state as of the raise: `len(self.df)` on `None` raises TypeError;
`reshape(-1, 0, 3)` on an empty marker group raises ValueError;
`marker_columns.index(...)` raises ValueError when the selected marker's
first column is not in the '<T-' group. -/
def update_body (markerName : String) (odf : Option RawTable) (st : PlotState)
    (fi : Int) : Except (PyExn × PlotState) (PlotState × Outcome) :=
  match odf with
  | none => Except.error (PyExn.typeError, st)
  | some df =>
    if fi < 0 ∨ (df.rows.length : Int) ≤ fi then Except.ok (st, Outcome.outOfBounds)
    else if (groupIdxs df.header).length % 3 ≠ 0 then
      Except.ok (PlotState.mk true st.scatter st.red, Outcome.badStructure)
    else if (groupIdxs df.header).length = 0 then
      Except.error (PyExn.valueError, PlotState.mk true st.scatter st.red)
    else if ((allMarkerPositions df).length : Int) ≤ fi then
      Except.ok (PlotState.mk true st.scatter st.red, Outcome.invalidFrameIndex)
    else if (framePositions df fi.toNat).all posFinite = false then
      Except.ok (PlotState.mk true st.scatter st.red, Outcome.frameInvalid)
    else if validMarkerPositions df fi.toNat = [] then
      Except.ok (PlotState.mk true st.scatter st.red, Outcome.noValidMarkers)
    else if (selectedColIdxs markerName df.header).length < 3 then
      Except.ok (PlotState.mk true st.scatter st.red, Outcome.incompleteSelected)
    else
      match List.findIdx? (fun j => df.header.getD j "" ==
          df.header.getD ((selectedColIdxs markerName df.header).headD 0) "")
          (groupIdxs df.header) with
      | none => Except.error (PyExn.valueError, PlotState.mk true st.scatter st.red)
      | some jpos =>
        if (validMarkerPositions df fi.toNat).all posFinite = false then
          Except.ok (PlotState.mk true none st.red, Outcome.residualNonFinite)
        else
          Except.ok (PlotState.mk true (some (validMarkerPositions df fi.toNat))
              (if posFinite ((framePositions df fi.toNat).getD (jpos / 3) vecDefault)
               then some ((framePositions df fi.toNat).getD (jpos / 3) vecDefault)
               else none),
            Outcome.updated (validMarkerPositions df fi.toNat)
              (if posFinite ((framePositions df fi.toNat).getD (jpos / 3) vecDefault)
               then some ((framePositions df fi.toNat).getD (jpos / 3) vecDefault)
               else none))

/-- `update_3d_plot` as its caller observes it: the whole body is wrapped
in `try ... except Exception` (lines 162, 274-275), so a raised exception
becomes a normal return after the print, with the state as of the raise. -/
def update_3d_plot (markerName : String) (odf : Option RawTable) (st : PlotState)
    (fi : Int) : PlotState × Outcome :=
  match update_body markerName odf st fi with
  | Except.error (_, stE) => (stE, Outcome.errorCaught)
  | Except.ok r => r

/-- Same call, but keeping "an exception propagates to the caller" as the
`Except.error` case of the result type: the `except Exception` handler
converts every raise into a normal `.ok` return. -/
def update_3d_plot_toCaller (markerName : String) (odf : Option RawTable)
    (st : PlotState) (fi : Int) : Except PyExn (PlotState × Outcome) :=
  match update_body markerName odf st fi with
  | Except.error (_, stE) => Except.ok (stE, Outcome.errorCaught)
  | Except.ok r => Except.ok r

/-- `valid_selected_marker` as the source computes it (lines 222-228):
`None` when the selected marker has fewer than 3 columns or its first
column is not found in the '<T-' group; otherwise
`frame_positions[marker_columns.index(marker_columns_selected[0]) // 3]`. -/
def selectedFramePos (markerName : String) (df : RawTable) (i : Nat) : Option Vec3 :=
  if (selectedColIdxs markerName df.header).length < 3 then none
  else
    match List.findIdx? (fun j => df.header.getD j "" ==
        df.header.getD ((selectedColIdxs markerName df.header).headD 0) "")
        (groupIdxs df.header) with
    | none => none
    | some jpos => some ((framePositions df i).getD (jpos / 3) vecDefault)

lemma allMarkerPositions_length (df : RawTable) :
    (allMarkerPositions df).length = df.rows.length :=
  List.length_map _ _

lemma markerValid_eq (p : Vec3) :
    markerValid p = (posFinite p && posInRange plausibleMin plausibleMax p &&
      posInRange extremeMin extremeMax p) := by
  unfold markerValid
  cases hf : posFinite p <;> cases hp : posInRange plausibleMin plausibleMax p <;>
    simp [hf, hp]

/-- Claim C3: a marker position of a validated frame is included in the
rendered set `valid_marker_positions` iff all three components are finite,
lie in the plausible range -1000..10000 and lie in the extreme envelope
-1e5..1e5; and the scenario marker (20000, 0, 0) is excluded — it fails
the plausible-range check while passing the extreme envelope (and is
finite). -/
theorem C3_render_set_iff :
    (∀ (t : RawTable) (i : Nat) (p : Vec3),
      p ∈ validMarkerPositions t i ↔
        (p ∈ framePositions t i ∧ posFinite p = true ∧
         posInRange plausibleMin plausibleMax p = true ∧
         posInRange extremeMin extremeMax p = true))
  ∧ markerValid (Val.fin 20000, Val.fin 0, Val.fin 0) = false
  ∧ posFinite (Val.fin 20000, Val.fin 0, Val.fin 0) = true
  ∧ posInRange plausibleMin plausibleMax (Val.fin 20000, Val.fin 0, Val.fin 0) = false
  ∧ posInRange extremeMin extremeMax (Val.fin 20000, Val.fin 0, Val.fin 0) = true := by
  refine ⟨?_, by decide, by decide, by decide, by decide⟩
  intro t i p
  rw [validMarkerPositions, List.mem_filter, markerValid_eq]
  simp [and_assoc]

/-- The frame of `C2_counterexample`: marker A's X cell is NaN, marker B
is fully valid. -/
def dfC2 : RawTable := RawTable.mk
  ["Frame", "<T-A>x", "<T-A>y", "<T-A>z", "<T-B>x", "<T-B>y", "<T-B>z"]
  [[Val.fin 0, Val.nan, Val.fin 0, Val.fin 0, Val.fin 1, Val.fin 2, Val.fin 3]]

/-- Claim C2 is false on the code: frame 0 of `dfC2` holds one marker
with a NaN component and one marker passing every validity check, yet
`update_3d_plot` skips the whole frame with the frame-invalid reason
(line 187's whole-frame `np.isfinite(...).all()` gate) instead of
rendering the valid subset. -/
theorem C2_counterexample :
    posFinite (Val.nan, Val.fin 0, Val.fin 0) = false
  ∧ markerValid (Val.fin 1, Val.fin 2, Val.fin 3) = true
  ∧ framePositions dfC2 0 =
      [(Val.nan, Val.fin 0, Val.fin 0), (Val.fin 1, Val.fin 2, Val.fin 3)]
  ∧ update_3d_plot "B" (some dfC2) (PlotState.mk false none none) 0 =
      (PlotState.mk true none none, Outcome.frameInvalid) := by
  decide

/-- Claim C2 amended: when any marker of the frame has a non-finite
component, the whole frame update is skipped (reason `frameInvalid`) and
no subset is rendered — the per-marker non-finite rejection of the filter
loop is never reached, because the whole-frame finiteness gate (line 187)
precedes it. -/
theorem C2_amended_whole_frame_skip (markerName : String) (df : RawTable)
    (st : PlotState) (fi : Int)
    (h0 : 0 ≤ fi) (h1 : fi < (df.rows.length : Int))
    (h2 : (groupIdxs df.header).length % 3 = 0)
    (h3 : (groupIdxs df.header).length ≠ 0)
    (h4 : (framePositions df fi.toNat).all posFinite = false) :
    update_3d_plot markerName (some df) st fi =
      (PlotState.mk true st.scatter st.red, Outcome.frameInvalid) := by
  simp only [update_3d_plot, update_body]
  rw [if_neg (by omega : ¬ (fi < 0 ∨ (df.rows.length : Int) ≤ fi)),
    if_neg (not_not_intro h2), if_neg h3,
    if_neg (by rw [allMarkerPositions_length]; omega :
      ¬ ((allMarkerPositions df).length : Int) ≤ fi),
    if_pos h4]

/-- Concrete instantiation of the amended C2 at `dfC2`. -/
theorem C2_amended_whole_frame_skip_witness :
    update_3d_plot "B" (some dfC2) (PlotState.mk false (some [(Val.fin 5, Val.fin 5, Val.fin 5)]) none) 0 =
      (PlotState.mk true (some [(Val.fin 5, Val.fin 5, Val.fin 5)]) none, Outcome.frameInvalid) :=
  C2_amended_whole_frame_skip "B" dfC2
    (PlotState.mk false (some [(Val.fin 5, Val.fin 5, Val.fin 5)]) none) 0
    (by decide) (by decide) (by decide) (by decide) (by decide)

/-- The frame of `C4_counterexample`: the selected marker B sits at
(20000, 0, 0) — finite but far outside the plausible range — while
marker A is fully valid. -/
def dfC4 : RawTable := RawTable.mk
  ["Frame", "<T-A>x", "<T-A>y", "<T-A>z", "<T-B>x", "<T-B>y", "<T-B>z"]
  [[Val.fin 0, Val.fin 1, Val.fin 2, Val.fin 3, Val.fin 20000, Val.fin 0, Val.fin 0]]

/-- Claim C4 is false on the code: the selected marker (20000, 0, 0)
fails the plausible-range check (`markerValid` is false, so it is absent
from the drawn general set), yet `update_3d_plot` still highlights it,
because the highlight only re-checks `np.isfinite` (line 252), not the
range thresholds. -/
theorem C4_counterexample :
    markerValid (Val.fin 20000, Val.fin 0, Val.fin 0) = false
  ∧ update_3d_plot "B" (some dfC4) (PlotState.mk false none none) 0 =
      (PlotState.mk true (some [(Val.fin 1, Val.fin 2, Val.fin 3)])
         (some (Val.fin 20000, Val.fin 0, Val.fin 0)),
       Outcome.updated [(Val.fin 1, Val.fin 2, Val.fin 3)]
         (some (Val.fin 20000, Val.fin 0, Val.fin 0))) := by
  decide

/-- Claim C4 amended: whenever the update reaches the drawing stage, the
selected marker is highlighted iff its own components are all finite —
the plausible-range and extreme-envelope checks are not applied to the
highlight (only `np.isfinite`, line 252), so a finite selected marker
failing the range checks is still highlighted even though it is excluded
from the general rendered set. -/
theorem C4_amended_highlight_checks_finite_only (markerName : String) (df : RawTable)
    (st : PlotState) (fi : Int) (jpos : Nat) (selPos : Vec3)
    (h0 : 0 ≤ fi) (h1 : fi < (df.rows.length : Int))
    (h2 : (groupIdxs df.header).length % 3 = 0)
    (h3 : (groupIdxs df.header).length ≠ 0)
    (h4 : (framePositions df fi.toNat).all posFinite = true)
    (h5 : validMarkerPositions df fi.toNat ≠ [])
    (h6 : ¬ (selectedColIdxs markerName df.header).length < 3)
    (h7 : List.findIdx? (fun j => df.header.getD j "" ==
        df.header.getD ((selectedColIdxs markerName df.header).headD 0) "")
        (groupIdxs df.header) = some jpos)
    (h8 : selPos = (framePositions df fi.toNat).getD (jpos / 3) vecDefault) :
    selectedFramePos markerName df fi.toNat = some selPos
  ∧ update_3d_plot markerName (some df) st fi =
      (PlotState.mk true (some (validMarkerPositions df fi.toNat))
         (if posFinite selPos then some selPos else none),
       Outcome.updated (validMarkerPositions df fi.toNat)
         (if posFinite selPos then some selPos else none))
  ∧ ((if posFinite selPos then some selPos else none) = some selPos ↔
      posFinite selPos = true)
  ∧ ((if posFinite selPos then some selPos else none) = none ↔
      posFinite selPos = false) := by
  have h9 : (validMarkerPositions df fi.toNat).all posFinite = true := by
    rw [List.all_eq_true] at h4 ⊢
    intro p hp
    exact h4 p (List.mem_of_mem_filter hp)
  subst h8
  refine ⟨?_, ?_, ?_, ?_⟩
  · rw [selectedFramePos, if_neg h6, h7]
  · simp only [update_3d_plot, update_body]
    rw [if_neg (by omega : ¬ (fi < 0 ∨ (df.rows.length : Int) ≤ fi)),
      if_neg (not_not_intro h2), if_neg h3,
      if_neg (by rw [allMarkerPositions_length]; omega :
        ¬ ((allMarkerPositions df).length : Int) ≤ fi),
      if_neg (by simp [h4]), if_neg h5, if_neg h6, h7]
    dsimp only
    rw [if_neg (by simp [h9])]
  · cases hps : posFinite ((framePositions df fi.toNat).getD (jpos / 3) vecDefault) <;>
      simp [hps]
  · cases hps : posFinite ((framePositions df fi.toNat).getD (jpos / 3) vecDefault) <;>
      simp [hps]

/-- Concrete instantiation of the amended C4 at `dfC4`: the out-of-range
but finite selected marker is highlighted. -/
theorem C4_amended_highlight_checks_finite_only_witness :
    selectedFramePos "B" dfC4 0 = some (Val.fin 20000, Val.fin 0, Val.fin 0)
  ∧ update_3d_plot "B" (some dfC4) (PlotState.mk false none none) 0 =
      (PlotState.mk true (some (validMarkerPositions dfC4 0))
         (if posFinite (Val.fin 20000, Val.fin 0, Val.fin 0)
          then some (Val.fin 20000, Val.fin 0, Val.fin 0) else none),
       Outcome.updated (validMarkerPositions dfC4 0)
         (if posFinite (Val.fin 20000, Val.fin 0, Val.fin 0)
          then some (Val.fin 20000, Val.fin 0, Val.fin 0) else none))
  ∧ ((if posFinite (Val.fin 20000, Val.fin 0, Val.fin 0)
      then some (Val.fin 20000, Val.fin 0, Val.fin 0) else none) =
        some (Val.fin 20000, Val.fin 0, Val.fin 0) ↔
      posFinite (Val.fin 20000, Val.fin 0, Val.fin 0) = true)
  ∧ ((if posFinite (Val.fin 20000, Val.fin 0, Val.fin 0)
      then some (Val.fin 20000, Val.fin 0, Val.fin 0) else none) = none ↔
      posFinite (Val.fin 20000, Val.fin 0, Val.fin 0) = false) :=
  C4_amended_highlight_checks_finite_only "B" dfC4 (PlotState.mk false none none) 0 3
    (Val.fin 20000, Val.fin 0, Val.fin 0)
    (by decide) (by decide) (by decide) (by decide) (by decide) (by decide)
    (by decide) (by decide) (by decide)

/-- Claim C7: when the frame passes the structural and whole-frame
finiteness gates but zero markers pass validation, the update returns the
"no valid markers" skip before any `remove()` call, so the previously
drawn general scatter and red highlight survive unchanged. -/
theorem C7_no_valid_markers_keeps_view (markerName : String) (df : RawTable)
    (st : PlotState) (fi : Int)
    (h0 : 0 ≤ fi) (h1 : fi < (df.rows.length : Int))
    (h2 : (groupIdxs df.header).length % 3 = 0)
    (h3 : (groupIdxs df.header).length ≠ 0)
    (h4 : (framePositions df fi.toNat).all posFinite = true)
    (h5 : validMarkerPositions df fi.toNat = []) :
    update_3d_plot markerName (some df) st fi =
      (PlotState.mk true st.scatter st.red, Outcome.noValidMarkers)
  ∧ (PlotState.mk true st.scatter st.red).scatter = st.scatter
  ∧ (PlotState.mk true st.scatter st.red).red = st.red := by
  refine ⟨?_, rfl, rfl⟩
  simp only [update_3d_plot, update_body]
  rw [if_neg (by omega : ¬ (fi < 0 ∨ (df.rows.length : Int) ≤ fi)),
    if_neg (not_not_intro h2), if_neg h3,
    if_neg (by rw [allMarkerPositions_length]; omega :
      ¬ ((allMarkerPositions df).length : Int) ≤ fi),
    if_neg (by simp [h4]), if_pos h5]

/-- The frame of the C7 witness: both markers are finite but outside the
plausible range, so zero markers pass validation. -/
def dfC7 : RawTable := RawTable.mk
  ["Frame", "<T-A>x", "<T-A>y", "<T-A>z", "<T-B>x", "<T-B>y", "<T-B>z"]
  [[Val.fin 0, Val.fin 99999, Val.fin 0, Val.fin 0, Val.fin 20000, Val.fin 0, Val.fin 0]]

/-- Concrete instantiation of C7 at `dfC7`, starting from a state with a
previously drawn scatter and highlight: both survive. -/
theorem C7_no_valid_markers_keeps_view_witness :
    update_3d_plot "B" (some dfC7)
      (PlotState.mk false (some [(Val.fin 4, Val.fin 4, Val.fin 4)])
        (some (Val.fin 6, Val.fin 6, Val.fin 6))) 0 =
      (PlotState.mk true (some [(Val.fin 4, Val.fin 4, Val.fin 4)])
        (some (Val.fin 6, Val.fin 6, Val.fin 6)), Outcome.noValidMarkers)
  ∧ (PlotState.mk true (some [(Val.fin 4, Val.fin 4, Val.fin 4)])
      (some (Val.fin 6, Val.fin 6, Val.fin 6))).scatter =
      some [(Val.fin 4, Val.fin 4, Val.fin 4)]
  ∧ (PlotState.mk true (some [(Val.fin 4, Val.fin 4, Val.fin 4)])
      (some (Val.fin 6, Val.fin 6, Val.fin 6))).red =
      some (Val.fin 6, Val.fin 6, Val.fin 6) :=
  C7_no_valid_markers_keeps_view "B" dfC7
    (PlotState.mk false (some [(Val.fin 4, Val.fin 4, Val.fin 4)])
      (some (Val.fin 6, Val.fin 6, Val.fin 6))) 0
    (by decide) (by decide) (by decide) (by decide) (by decide) (by decide)

/-- Claim C10: `update_3d_plot` never propagates an exception to its
caller — every input (a missing table, any frame index, NaN/Infinity
cells, malformed marker groupings) yields a normal return, because the
whole body sits in `try ... except Exception` (lines 162, 274).  The
raising paths are real: `len(self.df)` on an unloaded table raises
TypeError, which the handler converts to a normal return. -/
theorem C10_never_raises_to_caller :
    (∀ (markerName : String) (odf : Option RawTable) (st : PlotState) (fi : Int),
      ∃ r, update_3d_plot_toCaller markerName odf st fi = Except.ok r)
  ∧ (∀ (markerName : String) (odf : Option RawTable) (st : PlotState) (fi : Int),
      update_3d_plot_toCaller markerName odf st fi =
        Except.ok (update_3d_plot markerName odf st fi))
  ∧ update_body "B" none (PlotState.mk false none none) 0 =
      Except.error (PyExn.typeError, PlotState.mk false none none)
  ∧ update_3d_plot "B" none (PlotState.mk false none none) 0 =
      (PlotState.mk false none none, Outcome.errorCaught) := by
  refine ⟨?_, ?_, rfl, rfl⟩
  · intro markerName odf st fi
    unfold update_3d_plot_toCaller
    cases hb : update_body markerName odf st fi with
    | error e => exact ⟨(e.2, Outcome.errorCaught), by obtain ⟨e1, e2⟩ := e; rfl⟩
    | ok r => exact ⟨r, rfl⟩
  · intro markerName odf st fi
    unfold update_3d_plot_toCaller update_3d_plot
    cases hb : update_body markerName odf st fi with
    | error e => obtain ⟨e1, e2⟩ := e; rfl
    | ok r => rfl

/-- The table of the C6 counterexample: it has a 'Frame' column, the
selected marker "B" resolves to 1 column (not 3), and the '<T-' marker
group has 4 columns (not a multiple of 3). -/
def dfC6 : RawTable := RawTable.mk
  ["Frame", "<T-A>x", "<T-A>y", "<T-A>z", "<T-B>x"]
  [[Val.fin 1, Val.fin 2, Val.fin 3, Val.fin 4, Val.fin 5]]

/-- Claim C6 is false on the code: `dfC6` exhibits two of the three
structural errors (selected marker not resolving to 3 columns, marker
group count 4 not a multiple of 3), yet `load_data` succeeds and returns
the complete table — those two errors are not fatal to loading. -/
theorem C6_counterexample :
    (selectedColIdxs "B" dfC6.header).length = 1
  ∧ (groupIdxs dfC6.header).length % 3 ≠ 0
  ∧ load_data "B" dfC6 =
      Except.ok [[Val.fin 1, Val.fin 2, Val.fin 3, Val.fin 4, Val.fin 5]] :=
  ⟨by decide, by decide, by rfl⟩

/-- Claim C6 amended: only the missing frame-number column is fatal to
`load_data` (which then surfaces `ValueError` and returns no table); the
selected-marker-not-3-columns error is raised later by
`plot_marker_graph`, after a complete table has already been loaded and
retained; and the marker-group-count-not-a-multiple-of-3 error is a
recoverable per-update skip inside `update_3d_plot` that leaves the
previous view intact — neither of the latter two is a load failure. -/
theorem C6_amended_structural_errors :
    (∀ (markerName : String) (t : RawTable),
      ("Frame" ∈ t.header → ∃ rows, load_data markerName t = Except.ok rows)
      ∧ ("Frame" ∉ t.header →
          load_data markerName t = Except.error LoadError.missingFrameColumn))
  ∧ (∀ (markerName : String) (df : RawTable),
      (selectedColIdxs markerName df.header).length ≠ 3 →
      plot_marker_graph markerName (some df) =
        Except.error PlotGraphError.markerColumnsNot3)
  ∧ (∀ (markerName : String) (df : RawTable) (st : PlotState) (fi : Int),
      0 ≤ fi → fi < (df.rows.length : Int) →
      (groupIdxs df.header).length % 3 ≠ 0 →
      update_3d_plot markerName (some df) st fi =
        (PlotState.mk true st.scatter st.red, Outcome.badStructure)) := by
  refine ⟨?_, ?_, ?_⟩
  · intro markerName t
    constructor
    · intro hf
      exact ⟨_, by rw [load_data, if_pos hf]⟩
    · intro hf
      rw [load_data, if_neg hf]
  · intro markerName df h
    simp only [plot_marker_graph]
    rw [if_pos h]
  · intro markerName df st fi h0 h1 h2
    simp only [update_3d_plot, update_body]
    rw [if_neg (by omega : ¬ (fi < 0 ∨ (df.rows.length : Int) ≤ fi)), if_pos h2]

/-- Concrete instantiation of the amended C6 at `dfC6`: loading succeeds,
plotting the time-series raises, and the 3D update skips with the
bad-structure reason while keeping the previous view. -/
theorem C6_amended_structural_errors_witness :
    (∃ rows, load_data "B" dfC6 = Except.ok rows)
  ∧ plot_marker_graph "B" (some dfC6) = Except.error PlotGraphError.markerColumnsNot3
  ∧ update_3d_plot "B" (some dfC6) (PlotState.mk false none none) 0 =
      (PlotState.mk true none none, Outcome.badStructure) :=
  ⟨(C6_amended_structural_errors.1 "B" dfC6).1 (by decide),
   C6_amended_structural_errors.2.1 "B" dfC6 (by decide),
   C6_amended_structural_errors.2.2 "B" dfC6 (PlotState.mk false none none) 0
     (by decide) (by decide) (by decide)⟩

/-- `np.abs` on one rational. -/
def absQ (x : ℚ) : ℚ := if x < 0 then -x else x

/-- `np.argmin(np.abs(time_stamps - target))` (line 108): index of the
first occurrence of the minimal absolute difference, paired with that
minimal value; numpy's argmin returns the first index attaining the
minimum, which is the tie-toward-lower-index rule. -/
def argminAbsFrom (q : ℚ) : List ℚ → Option (Nat × ℚ)
  | [] => none
  | t :: ts =>
    match argminAbsFrom q ts with
    | none => some (0, absQ (t - q))
    | some (j, b) =>
      if absQ (t - q) ≤ b then some (0, absQ (t - q)) else some (j + 1, b)

/-- The frame-index resolution inside `on_add` (lines 102-111): reject a
target outside `[min(time_stamps), max(time_stamps)]`, take the argmin of
the absolute differences, and reject an index outside range (the source's
defensive `index < 0 or index >= len` check). `None` is the early
`return` (no 3D update happens). -/
def resolveFrameIndex (ts : List ℚ) (q : ℚ) : Option Nat :=
  match ts with
  | [] => none
  | t :: ts' =>
    if q < List.foldl min t ts' ∨ List.foldl max t ts' < q then none
    else
      match argminAbsFrom q (t :: ts') with
      | none => none
      | some jb => if (t :: ts').length ≤ jb.1 then none else some jb.1

lemma absQ_nonneg (x : ℚ) : 0 ≤ absQ x := by
  unfold absQ
  split <;> linarith

lemma absQ_eq_zero {x : ℚ} (h : absQ x = 0) : x = 0 := by
  unfold absQ at h
  by_cases hx : x < 0
  · rw [if_pos hx] at h; linarith
  · rwa [if_neg hx] at h

lemma absQ_sub_self (q : ℚ) : absQ (q - q) = 0 := by
  simp [absQ]

lemma foldl_min_le_init (l : List ℚ) : ∀ a : ℚ, List.foldl min a l ≤ a := by
  induction l with
  | nil => intro a; exact le_refl a
  | cons h t ih => intro a; exact le_trans (ih (min a h)) (min_le_left a h)

lemma foldl_min_le_mem (l : List ℚ) : ∀ (a x : ℚ), x ∈ l → List.foldl min a l ≤ x := by
  induction l with
  | nil => intro a x hx; cases hx
  | cons h t ih =>
    intro a x hx
    cases hx with
    | head => exact le_trans (foldl_min_le_init t (min a h)) (min_le_right a h)
    | tail _ hx => exact ih (min a h) x hx

lemma init_le_foldl_max (l : List ℚ) : ∀ a : ℚ, a ≤ List.foldl max a l := by
  induction l with
  | nil => intro a; exact le_refl a
  | cons h t ih => intro a; exact le_trans (le_max_left a h) (ih (max a h))

lemma mem_le_foldl_max (l : List ℚ) : ∀ (a x : ℚ), x ∈ l → x ≤ List.foldl max a l := by
  induction l with
  | nil => intro a x hx; cases hx
  | cons h t ih =>
    intro a x hx
    cases hx with
    | head => exact le_trans (le_max_right a h) (init_le_foldl_max t (max a h))
    | tail _ hx => exact ih (max a h) x hx

lemma argminAbsFrom_spec (q : ℚ) :
    ∀ ts : List ℚ, ts ≠ [] →
    ∃ j b, argminAbsFrom q ts = some (j, b) ∧ j < ts.length ∧
      b = absQ (ts.getD j 0 - q) ∧
      (∀ k, k < ts.length → b ≤ absQ (ts.getD k 0 - q)) ∧
      (∀ k, k < j → b < absQ (ts.getD k 0 - q)) := by
  intro ts
  induction ts with
  | nil => intro h; exact absurd rfl h
  | cons t ts ih =>
    intro _
    by_cases hts : ts = []
    · subst hts
      refine ⟨0, absQ (t - q), rfl, by simp, by simp, ?_, by omega⟩
      intro k hk
      simp only [List.length_cons, List.length_nil] at hk
      interval_cases k
      simp [List.getD_cons_zero]
    · obtain ⟨j, b, hres, hlt, hb, hmin, hstrict⟩ := ih hts
      simp only [argminAbsFrom]
      rw [hres]
      dsimp only
      by_cases hcmp : absQ (t - q) ≤ b
      · rw [if_pos hcmp]
        refine ⟨0, absQ (t - q), rfl, by simp, by simp, ?_, by omega⟩
        intro k hk
        cases k with
        | zero => simp [List.getD_cons_zero]
        | succ m =>
          rw [List.getD_cons_succ]
          refine le_trans hcmp (hmin m ?_)
          simp only [List.length_cons] at hk
          omega
      · rw [if_neg hcmp]
        push_neg at hcmp
        refine ⟨j + 1, b, rfl, by simp [List.length_cons]; omega,
          by rw [List.getD_cons_succ]; exact hb, ?_, ?_⟩
        · intro k hk
          cases k with
          | zero => rw [List.getD_cons_zero]; exact le_of_lt hcmp
          | succ m =>
            rw [List.getD_cons_succ]
            refine hmin m ?_
            simp only [List.length_cons] at hk
            omega
        · intro k hk
          cases k with
          | zero => rw [List.getD_cons_zero]; exact hcmp
          | succ m => rw [List.getD_cons_succ]; exact hstrict m (by omega)

lemma resolveFrameIndex_some {ts : List ℚ} {q : ℚ} {i : Nat}
    (h : resolveFrameIndex ts q = some i) :
    i < ts.length ∧
    (∀ k, k < ts.length → absQ (ts.getD i 0 - q) ≤ absQ (ts.getD k 0 - q)) ∧
    (∀ k, k < i → absQ (ts.getD i 0 - q) < absQ (ts.getD k 0 - q)) := by
  cases ts with
  | nil => simp [resolveFrameIndex] at h
  | cons t ts' =>
    simp only [resolveFrameIndex] at h
    by_cases hb : q < List.foldl min t ts' ∨ List.foldl max t ts' < q
    · rw [if_pos hb] at h; cases h
    · rw [if_neg hb] at h
      obtain ⟨j, b, hres, hlt, hbv, hmin, hstrict⟩ :=
        argminAbsFrom_spec q (t :: ts') (by simp)
      rw [hres] at h
      dsimp only at h
      rw [if_neg (by omega : ¬ (t :: ts').length ≤ j)] at h
      have hji : j = i := Option.some.inj h
      subst hji
      exact ⟨hlt, fun k hk => hbv ▸ hmin k hk, fun k hk => hbv ▸ hstrict k hk⟩

lemma resolveFrameIndex_exact {ts : List ℚ} (hnd : ts.Nodup) {i : Nat}
    (hi : i < ts.length) :
    resolveFrameIndex ts (ts.getD i 0) = some i := by
  cases ts with
  | nil => simp at hi
  | cons t ts' =>
    have hqmem : (t :: ts').getD i 0 ∈ t :: ts' := by
      rw [List.getD_eq_getElem _ _ hi]
      exact List.getElem_mem hi
    have hmin : List.foldl min t ts' ≤ (t :: ts').getD i 0 := by
      rcases List.mem_cons.mp hqmem with h | h
      · rw [h]; exact foldl_min_le_init ts' t
      · exact foldl_min_le_mem ts' t _ h
    have hmax : (t :: ts').getD i 0 ≤ List.foldl max t ts' := by
      rcases List.mem_cons.mp hqmem with h | h
      · rw [h]; exact init_le_foldl_max ts' t
      · exact mem_le_foldl_max ts' t _ h
    simp only [resolveFrameIndex]
    rw [if_neg (by push_neg; exact ⟨not_lt.mp (by linarith), not_lt.mp (by linarith)⟩)]
    obtain ⟨j, b, hres, hlt, hbv, hmins, hstrict⟩ :=
      argminAbsFrom_spec ((t :: ts').getD i 0) (t :: ts') (by simp)
    rw [hres]
    dsimp only
    rw [if_neg (by omega : ¬ (t :: ts').length ≤ j)]
    have hb0 : b = 0 := by
      have h1 := hmins i hi
      rw [absQ_sub_self] at h1
      have h2 := absQ_nonneg ((t :: ts').getD j 0 - (t :: ts').getD i 0)
      rw [← hbv] at h2
      linarith
    have hval : (t :: ts').getD j 0 = (t :: ts').getD i 0 := by
      have := absQ_eq_zero (hb0 ▸ hbv.symm)
      linarith
    have : j = i := by
      rw [List.getD_eq_getElem _ _ hlt, List.getD_eq_getElem _ _ hi] at hval
      exact (List.Nodup.getElem_inj_iff hnd).mp hval
    rw [this]

/-- Claim C5 is false as stated: [0, 5, 5] is a non-empty ordered
(monotonically non-decreasing) frame-number sequence — the data model
explicitly permits duplicate frame numbers — the exact frame-number value
of frame 2 is 5 and lies in bounds, yet the resolver returns index 1, not
index 2: with duplicates the argmin's first-minimum rule picks the lowest
index holding the value. -/
theorem C5_counterexample :
    List.Chain' (fun a b => a ≤ b) ([0, 5, 5] : List ℚ)
  ∧ ([0, 5, 5] : List ℚ).getD 2 0 = 5
  ∧ resolveFrameIndex [0, 5, 5] 5 = some 1
  ∧ (1 : Nat) ≠ 2 := by
  refine ⟨List.chain'_cons.mpr ⟨by norm_num, List.chain'_cons.mpr
    ⟨le_refl 5, List.chain'_singleton 5⟩⟩, by decide, ?_, by decide⟩
  norm_num [resolveFrameIndex, argminAbsFrom, absQ, min_def, max_def]

/-- Claim C5 amended: every resolved index is in range, minimizes the
absolute difference to the query, and is strictly better than every
earlier index (ties broken toward the lower index); resolving the exact
frame-number value of frame i returns index i provided the frame numbers
are pairwise distinct (with duplicates it returns the lowest index
holding that value, as the counterexample forces); and query 2.6 against
[0, 1, 2, 3, 4] resolves to index 3. -/
theorem C5_amended_nearest_low_tie :
    (∀ (ts : List ℚ) (q : ℚ) (i : Nat), resolveFrameIndex ts q = some i →
      i < ts.length ∧
      (∀ k, k < ts.length → absQ (ts.getD i 0 - q) ≤ absQ (ts.getD k 0 - q)) ∧
      (∀ k, k < i → absQ (ts.getD i 0 - q) < absQ (ts.getD k 0 - q)))
  ∧ (∀ ts : List ℚ, ts.Nodup → ∀ i, i < ts.length →
      resolveFrameIndex ts (ts.getD i 0) = some i)
  ∧ resolveFrameIndex [0, 1, 2, 3, 4] (13/5) = some 3 := by
  exact ⟨fun ts q i h => resolveFrameIndex_some h,
    fun ts hnd i hi => resolveFrameIndex_exact hnd hi,
    by norm_num [resolveFrameIndex, argminAbsFrom, absQ, min_def, max_def]⟩

/-- Concrete instantiation of the amended C5: distinct frame numbers
[0, 10, 20] resolve their own frame-1 value back to index 1, and query 12
resolves to an in-range index. -/
theorem C5_amended_nearest_low_tie_witness :
    resolveFrameIndex [0, 10, 20] (([0, 10, 20] : List ℚ).getD 1 0) = some 1
  ∧ 1 < ([0, 10, 20] : List ℚ).length :=
  ⟨C5_amended_nearest_low_tie.2.1 [0, 10, 20] (by norm_num) 1 (by decide),
   (C5_amended_nearest_low_tie.1 [0, 10, 20] 12 1
     (by norm_num [resolveFrameIndex, argminAbsFrom, absQ, min_def, max_def])).1⟩

/-- The hover-throttle window of `on_add` (line 87): the literal 0.1 s
(100 ms). -/
def throttleWindow : ℚ := 1/10

/-- The throttle at the top of `on_add` (lines 86-89) run over a sequence
of event times from a given `last_hover_time`: an event with
`t - last < w` returns immediately (dropped, state unchanged); otherwise
`last_hover_time` becomes `t` and the event is processed.  The result is
the subsequence of event times that get past the throttle (each of which
triggers the notification and the 3D update). -/
def forwardedTimes (w last : ℚ) : List ℚ → List ℚ
  | [] => []
  | t :: ts =>
    if t - last < w then forwardedTimes w last ts
    else t :: forwardedTimes w t ts

lemma forwardedTimes_head_spacing (w : ℚ) :
    ∀ (ts : List ℚ) (last h : ℚ),
      (forwardedTimes w last ts).head? = some h → w ≤ h - last := by
  intro ts
  induction ts with
  | nil => intro last h hh; simp [forwardedTimes] at hh
  | cons t ts ih =>
    intro last h hh
    simp only [forwardedTimes] at hh
    by_cases hc : t - last < w
    · rw [if_pos hc] at hh
      exact ih last h hh
    · rw [if_neg hc] at hh
      simp only [List.head?_cons] at hh
      have ht := Option.some.inj hh
      subst ht
      linarith [not_lt.mp hc]

lemma forwardedTimes_chain (w : ℚ) :
    ∀ (ts : List ℚ) (last : ℚ),
      List.Chain' (fun a b => w ≤ b - a) (forwardedTimes w last ts) := by
  intro ts
  induction ts with
  | nil => intro last; simp [forwardedTimes]
  | cons t ts ih =>
    intro last
    simp only [forwardedTimes]
    by_cases hc : t - last < w
    · rw [if_pos hc]; exact ih last
    · rw [if_neg hc]
      rw [List.chain'_cons']
      refine ⟨fun y hy => ?_, ih t⟩
      exact forwardedTimes_head_spacing w ts t y (Option.mem_def.mp hy)

/-- Claim C8: any two consecutively forwarded notifications are at least
one throttle window apart (at most one per window); an event arriving
within the window of the last accepted event is dropped silently — output
and throttle state are as if it never arrived (not queued); the source
window is the literal 0.1 s; and in the scenario with pointer events at
t, t+30ms, t+140ms (t = 1000 s; `last_hover_time` initialized to 0)
exactly the two events t and t+140ms get through and t+30ms is dropped. -/
theorem C8_throttle :
    (∀ (w last : ℚ) (ts : List ℚ),
      List.Chain' (fun a b => w ≤ b - a) (forwardedTimes w last ts))
  ∧ (∀ (w last t : ℚ) (ts : List ℚ), t - last < w →
      forwardedTimes w last (t :: ts) = forwardedTimes w last ts)
  ∧ throttleWindow = 1/10
  ∧ forwardedTimes throttleWindow 0 [1000, 1000 + 3/100, 1000 + 14/100] =
      [1000, 1000 + 14/100] := by
  refine ⟨fun w last ts => forwardedTimes_chain w ts last,
    fun w last t ts h => ?_, rfl, by norm_num [forwardedTimes, throttleWindow]⟩
  simp only [forwardedTimes]
  rw [if_pos h]

/-- Concrete instantiation of C8's drop clause: an event 30ms after the
last accepted one leaves the forwarded sequence unchanged. -/
theorem C8_throttle_witness :
    forwardedTimes throttleWindow 1000 ((1000 + 3/100) :: []) =
      forwardedTimes throttleWindow 1000 [] :=
  C8_throttle.2.1 throttleWindow 1000 (1000 + 3/100) [] (by norm_num [throttleWindow])

/-- The notification payload computed in `on_add` (line 115):
`time_stamps.iloc[index] / len(time_stamps) * 100` — the frame-number
value at the resolved index (not its position), divided by the row count,
scaled by 100. -/
def percentagePayload (timeStamps : List ℚ) (index : Nat) : ℚ :=
  timeStamps.getD index 0 / (timeStamps.length : ℚ) * 100

/-- What `BabylonCommunicator.percentage_frame_sender` does with its
argument (communicateBabylon.py lines 41-54): a missing value and an
out-of-range percentage are dropped with a print; otherwise the payload
`{'percentage': p}` is posted to the endpoint. -/
inductive SendResult
  | droppedNone
  | droppedRange
  | sent (p : ℚ)
deriving DecidableEq

/-- `BabylonCommunicator.percentage_frame_sender` (lines 41-54). -/
def percentage_frame_sender (op : Option ℚ) : SendResult :=
  match op with
  | none => SendResult.droppedNone
  | some p =>
    if p < 0 ∨ 100 < p then SendResult.droppedRange else SendResult.sent p

/-- Claim C9 is false on the code: for the legitimately ordered,
duplicate-free frame-number column [5, 6, 7], the resolver maps query 5
to the in-bounds index 0, but the computed payload is 500/3 ≈ 166.7 —
the frame-number VALUE divided by the row count, not the position — which
is outside the contract range 0..100 and is then silently dropped by
`percentage_frame_sender` rather than forwarded. -/
theorem C9_counterexample :
    List.Chain' (fun a b => a ≤ b) ([5, 6, 7] : List ℚ)
  ∧ resolveFrameIndex [5, 6, 7] 5 = some 0
  ∧ percentagePayload [5, 6, 7] 0 = 500/3
  ∧ ¬ ((500/3 : ℚ) ≤ 100)
  ∧ (500/3 : ℚ) ≠ (0 : ℚ) / 3 * 100
  ∧ percentage_frame_sender (some (percentagePayload [5, 6, 7] 0)) =
      SendResult.droppedRange := by
  refine ⟨List.chain'_cons.mpr ⟨by norm_num, List.chain'_cons.mpr
      ⟨by norm_num, List.chain'_singleton 7⟩⟩,
    by norm_num [resolveFrameIndex, argminAbsFrom, absQ, min_def, max_def],
    by norm_num [percentagePayload], by norm_num, by norm_num,
    by norm_num [percentage_frame_sender, percentagePayload]⟩

/-- The frame-number column of a recording whose frames are numbered
0, 1, ..., n-1 (0-based contiguous). -/
def zeroBasedStamps (n : Nat) : List ℚ := List.map Nat.cast (List.range n)

/-- Claim C9 amended: a forwarded notification's payload is the resolved
frame-number value divided by the row count, scaled by 100, and every
payload the sender actually forwards lies in 0..100 (out-of-range
payloads are dropped by the sender, not forwarded); when the frame
numbers are the 0-based contiguous 0..n-1, the payload coincides with the
position-based percentage and always lies in 0..100. -/
theorem C9_amended_percentage :
    (∀ (ts : List ℚ) (i : Nat) (p : ℚ),
      percentage_frame_sender (some (percentagePayload ts i)) = SendResult.sent p →
      p = ts.getD i 0 / (ts.length : ℚ) * 100 ∧ 0 ≤ p ∧ p ≤ 100)
  ∧ (∀ q : ℚ, q < 0 ∨ 100 < q →
      percentage_frame_sender (some q) = SendResult.droppedRange)
  ∧ (∀ n i : Nat, i < n →
      percentagePayload (zeroBasedStamps n) i = (i : ℚ) / (n : ℚ) * 100
      ∧ 0 ≤ (i : ℚ) / (n : ℚ) * 100 ∧ (i : ℚ) / (n : ℚ) * 100 ≤ 100) := by
  refine ⟨?_, ?_, ?_⟩
  · intro ts i p h
    simp only [percentage_frame_sender] at h
    by_cases hc : percentagePayload ts i < 0 ∨ 100 < percentagePayload ts i
    · rw [if_pos hc] at h; cases h
    · rw [if_neg hc] at h
      push_neg at hc
      have hp := SendResult.sent.inj h
      subst hp
      exact ⟨rfl, hc.1, hc.2⟩
  · intro q hq
    simp only [percentage_frame_sender]
    rw [if_pos hq]
  · intro n i hi
    have hlen : (zeroBasedStamps n).length = n := by
      rw [zeroBasedStamps, List.length_map, List.length_range]
    have hget : (zeroBasedStamps n).getD i 0 = (i : ℚ) := by
      rw [zeroBasedStamps, List.getD_eq_getElem _ _
        (by rw [List.length_map, List.length_range]; exact hi)]
      rw [List.getElem_map, List.getElem_range]
    have hdiv1 : (i : ℚ) / (n : ℚ) ≤ 1 := by
      apply div_le_one_of_le₀
      · exact_mod_cast le_of_lt hi
      · positivity
    refine ⟨by rw [percentagePayload, hget, hlen], by positivity, by linarith⟩

/-- Concrete instantiation of the amended C9: a 0-based table of 4 frames
at index 2 forwards exactly 50, in range; payload 200 is dropped. -/
theorem C9_amended_percentage_witness :
    ((50 : ℚ) = ([0, 1, 2, 3] : List ℚ).getD 2 0 /
        ((([0, 1, 2, 3] : List ℚ).length : Nat) : ℚ) * 100
      ∧ 0 ≤ (50 : ℚ) ∧ (50 : ℚ) ≤ 100)
  ∧ percentage_frame_sender (some 200) = SendResult.droppedRange
  ∧ (percentagePayload (zeroBasedStamps 4) 2 = (2 : ℚ) / (4 : ℚ) * 100
      ∧ 0 ≤ ((2 : Nat) : ℚ) / ((4 : Nat) : ℚ) * 100
      ∧ ((2 : Nat) : ℚ) / ((4 : Nat) : ℚ) * 100 ≤ 100) :=
  ⟨C9_amended_percentage.1 [0, 1, 2, 3] 2 50
     (by norm_num [percentage_frame_sender, percentagePayload]),
   C9_amended_percentage.2.1 200 (Or.inr (by decide)),
   C9_amended_percentage.2.2 4 2 (by decide)⟩
